import Mathlib

/-!
Shallow embedding of the macOS pasteboard backend of `arboard`
(`src/osx_clipboard.rs`), used to check the natural-language
specification of the clipboard abstraction against the code.

Native pasteboard state is modelled by the `Pasteboard` structure; the
outcome of each native message send that depends on the OS or on the
filesystem is supplied by a `Sys` record, so every operation is a pure
function of `(Sys, Pasteboard)`.  Each operation also returns the list
of native calls it issued (`NativeCall`), which gives the frame-effect
semantics: `applyCalls` says how a call list transforms the pasteboard.
-/

/-- `pub const TIFF: &str = "public.tiff"` from the source. -/
def TIFF : String := "public.tiff"

/-- `pub const FILE_URL: &str = "public.file-url"` from the source. -/
def FILE_URL : String := "public.file-url"

/-- The cocoa constant `NSPasteboardTypeString`; an external platform
identifier, opaque to the claims, modelled by its UTI string. -/
def NSPasteboardTypeString : String := "public.utf8-plain-text"

/-- Modelled from the spec: the error taxonomy of section 7, restricted to
the variants the backend source actually constructs (the declaring module
`common.rs` is not part of the sources given): `Error::Unknown { description }`
and `Error::ConversionFailure`. -/
inductive Error where
  | unknown (description : String)
  | conversionFailure
deriving DecidableEq

/-- The error `get_image` returns when the TIFF type is absent
(source line 66); the error the spec names `NotAnImage`. -/
def notAnImageErr : Error := .unknown "probably not a picture"

/-- The error returned when `dataForType` comes back nil (source lines 73 and 107). -/
def noDataErr : Error := .unknown "can not get data"

/-- The error when the file-url payload lacks the `file://` scheme
(source line 81); one of the errors the spec names `InvalidReference`. -/
def fileUrlIllegalErr : Error := .unknown "file url illegal"

/-- The error when percent-decoding the file-url path fails
(source line 85); the other error the spec names `InvalidReference`. -/
def decodeUrlErr : Error := .unknown "decode url error"

/-- The error when decoding the referenced image file fails
(source line 98); the spec names this path `DecodeFailure`. -/
def openImgErr : Error := .unknown "open img error"

/-- The error `get_text` returns when `stringForType` comes back nil
(source line 38); the error the spec names `NotAvailable`. -/
def notAvailableErr : Error := .unknown "can not get string from clipboard"

/-- The error `set_text` returns when `setString:forType:` returns NO
(source line 53); the error the spec names `WriteFailure`. -/
def writeFailureErr : Error := .unknown "failed to set clipboard"

/-- The error `set_image` returns when `writeObjects:` returns NO
(source lines 130 to 134); the error the spec names `WriteFailure`. -/
def writeObjectsErr : Error :=
  .unknown "Failed to write the image to the pasteboard (`writeObjects` returned NO)."

/-- The outcome of one backend operation: a value, a typed error, or a
Rust panic (an `unwrap` on an `Err`), which a shallow embedding must keep
distinct from returning an error. -/
inductive Outcome (α : Type) where
  | ok (a : α)
  | error (e : Error)
  | panic (msg : String)
deriving DecidableEq

/-- Modelled from the spec: the `CanonicalImage` buffer of section 3
(`ImageData` in the source; its declaring module `common.rs` is not part of
the sources given): width, height, and the RGBA8 bytes. -/
structure ImageData where
  width : Nat
  height : Nat
  bytes : List Nat
deriving DecidableEq

/-- One RGBA pixel (the four channel bytes). -/
structure Pixel where
  r : Nat
  g : Nat
  b : Nat
  a : Nat
deriving DecidableEq

/-- Model of `image::RgbaImage` (an `ImageBuffer` of RGBA8 pixels): a
width, a height, and the pixel at each coordinate.  `into_raw` is the
row-major flattening, four bytes per pixel. -/
structure Rgba8Image where
  width : Nat
  height : Nat
  pixel : Nat → Nat → Pixel

/-- Model of `ImageBuffer::into_raw`: row-major bytes, 4 per pixel, no
padding. -/
def Rgba8Image.intoRaw (img : Rgba8Image) : List Nat :=
  (List.range img.height).flatMap fun y =>
    (List.range img.width).flatMap fun x =>
      [(img.pixel x y).r, (img.pixel x y).g, (img.pixel x y).b, (img.pixel x y).a]

/-- Model of `image::DynamicImage`.  The backend only ever consumes a
`DynamicImage` through `into_rgba8`, so the model carries exactly the
RGBA8 image that conversion yields. -/
structure DynamicImage where
  toRgba8 : Rgba8Image

/-- `deal_dynamic_image` from the source (lines 140 to 151): convert the
decoded image to RGBA8 and package the canonical buffer.  The source
returns `Result` but has no failing path. -/
def deal_dynamic_image (dyna_img : DynamicImage) : Except Error ImageData :=
  let rgba := dyna_img.toRgba8
  Except.ok { width := rgba.width, height := rgba.height, bytes := rgba.intoRaw }

/-- Lift the `Result` of `deal_dynamic_image` into an operation outcome. -/
def Outcome.ofExcept : Except Error α → Outcome α
  | .ok a => .ok a
  | .error e => .error e

/-- Model of the pasteboard state the backend can observe: the advertised
type identifiers (`types`), and the per-type payloads behind
`stringForType:` and `dataForType:` (`none` models a nil return). -/
@[ext]
structure Pasteboard where
  types : List String
  stringFor : String → Option String
  dataFor : String → Option (List Nat)

/-- The pasteboard right after `clearContents`. -/
def Pasteboard.empty : Pasteboard :=
  { types := [], stringFor := fun _ => none, dataFor := fun _ => none }

/-- The native messages the backend sends to the pasteboard, with the
OS-chosen boolean result recorded on the two write calls. -/
inductive NativeCall where
  | queryTypes
  | stringForType (ty : String)
  | dataForType (ty : String)
  | clearContents
  | setString (s : String) (ty : String) (ok : Bool)
  | writeObjects (ok : Bool)
deriving DecidableEq

/-- A call is a pure query when it is `types`, `stringForType:` or
`dataForType:`. -/
def NativeCall.isQuery : NativeCall → Bool
  | .queryTypes => true
  | .stringForType _ => true
  | .dataForType _ => true
  | .clearContents => false
  | .setString _ _ _ => false
  | .writeObjects _ => false

/-- State semantics of one native call.  Queries leave the pasteboard
unchanged; `clearContents` empties it; a successful `setString` declares
the type and installs the string; `writeObjects` installs representations
chosen by the OS for the written objects, supplied as the parameter
`wsem` since the backend never depends on them. -/
def applyCall (wsem : Pasteboard → Pasteboard) (pb : Pasteboard) :
    NativeCall → Pasteboard
  | .queryTypes => pb
  | .stringForType _ => pb
  | .dataForType _ => pb
  | .clearContents => Pasteboard.empty
  | .setString s ty ok =>
      if ok then
        { types := if pb.types.contains ty then pb.types else pb.types ++ [ty],
          stringFor := fun u => if u = ty then some s else pb.stringFor u,
          dataFor := pb.dataFor }
      else pb
  | .writeObjects ok => if ok then wsem pb else pb

/-- State semantics of a list of native calls, first to last. -/
def applyCalls (wsem : Pasteboard → Pasteboard) (calls : List NativeCall)
    (pb : Pasteboard) : Pasteboard :=
  calls.foldl (applyCall wsem) pb

/-- Outcome of `image::io::Reader::open` followed by
`with_guessed_format` and `decode` on one file path, as the filesystem
and the image crate determine it. -/
inductive FileReadResult where
  | openErr
  | guessErr
  | decodeErr
  | decoded (d : DynamicImage)

/-- The environment behind the native and library calls whose results the
OS, the filesystem or an external crate chooses: whether
`setString:forType:` and `writeObjects:` succeed, whether
`Class::get("NSImage")` finds the class, what reading and decoding an
image file at a path yields, and what the TIFF decoder makes of a byte
payload (`none` models a decode error). -/
structure Sys where
  setStringOk : Bool
  writeObjectsOk : Bool
  nsImageClass : Bool
  readImageFile : String → FileReadResult
  decodeTiff : List Nat → Option DynamicImage

/-- UTF-8 encoding of one character (scalar value), as the Rust standard
library produces it. -/
def charToUtf8 (c : Char) : List Nat :=
  let n := c.toNat
  if n < 0x80 then [n]
  else if n < 0x800 then [0xC0 + n / 64, 0x80 + n % 64]
  else if n < 0x10000 then
    [0xE0 + n / 4096, 0x80 + (n / 64) % 64, 0x80 + n % 64]
  else
    [0xF0 + n / 262144, 0x80 + (n / 4096) % 64, 0x80 + (n / 64) % 64, 0x80 + n % 64]

/-- The bytes of a string (the `as_bytes` view Rust works on). -/
def strToBytes (s : String) : List Nat := s.data.flatMap charToUtf8

/-- Whether a byte is a UTF-8 continuation byte (0x80 to 0xBF). -/
def isCont (b : Nat) : Bool := 0x80 ≤ b && b ≤ 0xBF

/-- Strict UTF-8 decoding to code points, following the byte-range table
of RFC 3629 (what `String::from_utf8` accepts): `none` on any malformed
sequence. -/
def utf8DecodeStrict : List Nat → Option (List Nat)
  | [] => some []
  | b1 :: rest =>
    if b1 < 0x80 then (utf8DecodeStrict rest).map (b1 :: ·)
    else if 0xC2 ≤ b1 && b1 ≤ 0xDF then
      match rest with
      | c1 :: rest2 =>
        if isCont c1 then
          (utf8DecodeStrict rest2).map (((b1 - 0xC0) * 64 + (c1 - 0x80)) :: ·)
        else none
      | [] => none
    else if 0xE0 ≤ b1 && b1 ≤ 0xEF then
      match rest with
      | c1 :: c2 :: rest2 =>
        if (if b1 = 0xE0 then 0xA0 ≤ c1 && c1 ≤ 0xBF
            else if b1 = 0xED then 0x80 ≤ c1 && c1 ≤ 0x9F
            else isCont c1) && isCont c2 then
          (utf8DecodeStrict rest2).map
            (((b1 - 0xE0) * 4096 + (c1 - 0x80) * 64 + (c2 - 0x80)) :: ·)
        else none
      | _ => none
    else if 0xF0 ≤ b1 && b1 ≤ 0xF4 then
      match rest with
      | c1 :: c2 :: c3 :: rest2 =>
        if (if b1 = 0xF0 then 0x90 ≤ c1 && c1 ≤ 0xBF
            else if b1 = 0xF4 then 0x80 ≤ c1 && c1 ≤ 0x8F
            else isCont c1) && isCont c2 && isCont c3 then
          (utf8DecodeStrict rest2).map
            (((b1 - 0xF0) * 262144 + (c1 - 0x80) * 4096
              + (c2 - 0x80) * 64 + (c3 - 0x80)) :: ·)
        else none
      | _ => none
    else none

/-- Lossy UTF-8 decoding to code points (model of
`String::from_utf8_lossy`): a malformed sequence yields the replacement
character U+FFFD.  On a malformed sequence the model emits one
replacement character and resumes after the bytes it examined, whereas
Rust resynchronises by maximal subparts; the two agree on every valid
payload and differ only in how many replacement characters a malformed
payload yields. -/
def utf8DecodeLossy : List Nat → List Nat
  | [] => []
  | b1 :: rest =>
    if b1 < 0x80 then b1 :: utf8DecodeLossy rest
    else if 0xC2 ≤ b1 && b1 ≤ 0xDF then
      match rest with
      | c1 :: rest2 =>
        if isCont c1 then ((b1 - 0xC0) * 64 + (c1 - 0x80)) :: utf8DecodeLossy rest2
        else 0xFFFD :: utf8DecodeLossy rest2
      | [] => [0xFFFD]
    else if 0xE0 ≤ b1 && b1 ≤ 0xEF then
      match rest with
      | c1 :: c2 :: rest2 =>
        if (if b1 = 0xE0 then 0xA0 ≤ c1 && c1 ≤ 0xBF
            else if b1 = 0xED then 0x80 ≤ c1 && c1 ≤ 0x9F
            else isCont c1) && isCont c2 then
          ((b1 - 0xE0) * 4096 + (c1 - 0x80) * 64 + (c2 - 0x80)) :: utf8DecodeLossy rest2
        else 0xFFFD :: utf8DecodeLossy rest2
      | _ => [0xFFFD]
    else if 0xF0 ≤ b1 && b1 ≤ 0xF4 then
      match rest with
      | c1 :: c2 :: c3 :: rest2 =>
        if (if b1 = 0xF0 then 0x90 ≤ c1 && c1 ≤ 0xBF
            else if b1 = 0xF4 then 0x80 ≤ c1 && c1 ≤ 0x8F
            else isCont c1) && isCont c2 && isCont c3 then
          ((b1 - 0xF0) * 262144 + (c1 - 0x80) * 4096
            + (c2 - 0x80) * 64 + (c3 - 0x80)) :: utf8DecodeLossy rest2
        else 0xFFFD :: utf8DecodeLossy rest2
      | _ => [0xFFFD]
    else 0xFFFD :: utf8DecodeLossy rest

/-- `String::from_utf8_lossy` over a raw byte payload (the string a
`from_nsdata` buffer reads as). -/
def fromUtf8Lossy (bs : List Nat) : String :=
  String.mk ((utf8DecodeLossy bs).map Char.ofNat)

/-- `str::strip_prefix("file://")`, on the character view of the
string. -/
def stripFileScheme (s : String) : Option String :=
  if "file://".data.isPrefixOf s.data then some (String.mk (s.data.drop 7))
  else none

/-- The value of an ASCII hex-digit byte. -/
def hexVal (b : Nat) : Option Nat :=
  if 48 ≤ b && b ≤ 57 then some (b - 48)
  else if 65 ≤ b && b ≤ 70 then some (b - 55)
  else if 97 ≤ b && b ≤ 102 then some (b - 87)
  else none

/-- Percent-decoding on bytes as the `urlencoding` crate performs it: a
`%` followed by two hex digits becomes the byte they denote; any other
`%` is kept as a literal byte. -/
def percentDecodeBytes : List Nat → List Nat
  | [] => []
  | 37 :: a :: b :: rest =>
    (match hexVal a, hexVal b with
     | some ha, some hb => (16 * ha + hb) :: percentDecodeBytes rest
     | _, _ => 37 :: percentDecodeBytes (a :: b :: rest))
  | c :: rest => c :: percentDecodeBytes rest

/-- Model of `urlencoding::decode` followed by `into_owned`:
percent-decode the bytes of the string, then require the result to be
valid UTF-8 (`none` models the `FromUtf8Error` case the source checks
with `is_err`). -/
def urldecode (s : String) : Option String :=
  (utf8DecodeStrict (percentDecodeBytes (strToBytes s))).map
    fun cps => String.mk (cps.map Char.ofNat)

/-- `available_type_names` from the source (lines 230 to 241): the list
of type identifiers the pasteboard advertises. -/
def available_type_names (pb : Pasteboard) : List String := pb.types

/-- `get_image` from the source (lines 61 to 116): fail if the TIFF type
is absent; else, if the file-url type is present, read its payload, strip
the `file://` scheme, percent-decode the path, open and decode the file
(the two `unwrap` calls on I/O results panic), and normalise; otherwise
read the TIFF payload, decode it as TIFF, and normalise. -/
def get_image (sys : Sys) (pb : Pasteboard) :
    Outcome ImageData × List NativeCall :=
  let available_type := available_type_names pb
  if !available_type.contains TIFF then
    (.error notAnImageErr, [.queryTypes])
  else if available_type.contains FILE_URL then
    match pb.dataFor FILE_URL with
    | none => (.error noDataErr, [.queryTypes, .dataForType FILE_URL])
    | some data =>
      let file_url := fromUtf8Lossy data
      match stripFileScheme file_url with
      | none => (.error fileUrlIllegalErr, [.queryTypes, .dataForType FILE_URL])
      | some stripped =>
        match urldecode stripped with
        | none => (.error decodeUrlErr, [.queryTypes, .dataForType FILE_URL])
        | some path =>
          match sys.readImageFile path with
          | .openErr =>
            (.panic "called Result::unwrap() on an Err value",
             [.queryTypes, .dataForType FILE_URL])
          | .guessErr =>
            (.panic "called Result::unwrap() on an Err value",
             [.queryTypes, .dataForType FILE_URL])
          | .decodeErr =>
            (.error openImgErr, [.queryTypes, .dataForType FILE_URL])
          | .decoded dyna_img =>
            (Outcome.ofExcept (deal_dynamic_image dyna_img),
             [.queryTypes, .dataForType FILE_URL])
  else
    match pb.dataFor TIFF with
    | none => (.error noDataErr, [.queryTypes, .dataForType TIFF])
    | some data =>
      match sys.decodeTiff data with
      | some img =>
        (Outcome.ofExcept (deal_dynamic_image img),
         [.queryTypes, .dataForType TIFF])
      | none => (.error .conversionFailure, [.queryTypes, .dataForType TIFF])

/-- `kCGBitmapByteOrderDefault` from CoreGraphics. -/
def kCGBitmapByteOrderDefault : Nat := 0

/-- `kCGImageAlphaLast` from CoreGraphics (alpha in the last component
position). -/
def kCGImageAlphaLast : Nat := 3

/-- `kCGRenderingIntentDefault` from CoreGraphics. -/
def kCGRenderingIntentDefault : Nat := 0

/-- The color spaces this backend can name; the source only ever creates
the device RGB space. -/
inductive ColorSpace where
  | deviceRGB
deriving DecidableEq

/-- The arguments `image_from_pixels` hands to `CGImage::new` (source
lines 186 to 197), with the provider modelled by the byte buffer it
wraps. -/
structure CGImageModel where
  width : Nat
  height : Nat
  bitsPerComponent : Nat
  bitsPerPixel : Nat
  bytesPerRow : Nat
  colorSpace : ColorSpace
  bitmapInfo : Nat
  data : List Nat
  shouldInterpolate : Bool
  renderingIntent : Nat
deriving DecidableEq

/-- The `NSImage` object `image_from_pixels` builds: the wrapped CG
image and the point size it is initialised with (the source casts the
pixel dimensions to `CGFloat`; the casts are exact, so the size is kept
as the pair of naturals). -/
structure NSImage where
  cg : CGImageModel
  sizeW : Nat
  sizeH : Nat
deriving DecidableEq

/-- `image_from_pixels` from the source (lines 155 to 204): build the
device-RGB color space and the alpha-last, default-byte-order bitmap
info, wrap the pixel bytes in a data provider, construct the CG image
with 8 bits per component, 32 bits per pixel and `4 * width` bytes per
row, and wrap it in an `NSImage`; the only failing step is
`Class::get("NSImage")` coming back `None`. -/
def image_from_pixels (sys : Sys) (pixels : List Nat) (width height : Nat) :
    Except String NSImage :=
  let colorspace := ColorSpace.deviceRGB
  let bitmap_info := kCGBitmapByteOrderDefault ||| kCGImageAlphaLast
  let cg_image : CGImageModel :=
    { width := width, height := height, bitsPerComponent := 8,
      bitsPerPixel := 32, bytesPerRow := 4 * width, colorSpace := colorspace,
      bitmapInfo := bitmap_info, data := pixels, shouldInterpolate := false,
      renderingIntent := kCGRenderingIntentDefault }
  if sys.nsImageClass then .ok { cg := cg_image, sizeW := width, sizeH := height }
  else .error "Class::get(\"NSImage\")"

/-- `set_image` from the source (lines 119 to 137): encode the canonical
buffer into an `NSImage` (any failure becomes `ConversionFailure` before
any native write), then `clearContents` and `writeObjects:`; a NO answer
from the write is the write-failure error. -/
def set_image (sys : Sys) (data : ImageData) : Outcome Unit × List NativeCall :=
  match image_from_pixels sys data.bytes data.width data.height with
  | .error _ => (.error .conversionFailure, [])
  | .ok _image =>
    ((if sys.writeObjectsOk then .ok () else .error writeObjectsErr),
     [.clearContents, .writeObjects sys.writeObjectsOk])

/-- `get_text` from the source (lines 33 to 43): ask for the string for
the plain-text type; a nil answer is the no-text error, otherwise return
the string. -/
def get_text (pb : Pasteboard) : Outcome String × List NativeCall :=
  (match pb.stringFor NSPasteboardTypeString with
   | none => .error notAvailableErr
   | some contents => .ok contents,
   [.stringForType NSPasteboardTypeString])

/-- `set_text` from the source (lines 45 to 58): `clearContents`, then
`setString:forType:`; a NO answer is the write-failure error. -/
def set_text (sys : Sys) (data : String) : Outcome Unit × List NativeCall :=
  ((if sys.setStringOk then .ok () else .error writeFailureErr),
   [.clearContents, .setString data NSPasteboardTypeString sys.setStringOk])

/-- Claim C7: with no text-typed entry on the pasteboard, `get_text`
fails with the no-text-available error. -/
theorem claim_C7 (pb : Pasteboard)
    (h : pb.stringFor NSPasteboardTypeString = none) :
    (get_text pb).1 = .error notAvailableErr := by
  simp [get_text, h]

/-- Witness for claim C7 at the empty pasteboard. -/
theorem claim_C7_witness :
    (get_text Pasteboard.empty).1 = .error notAvailableErr :=
  claim_C7 Pasteboard.empty rfl

/-- The pasteboard holding exactly one entry: the string `s` under the
plain-text type (what a successful `set_text s` leaves behind). -/
def soleTextEntry (s : String) : Pasteboard :=
  { types := [NSPasteboardTypeString],
    stringFor := fun ty => if ty = NSPasteboardTypeString then some s else none,
    dataFor := fun _ => none }

/-- Flattening lists of a common length `k` over `l` yields
`l.length * k` elements. -/
theorem length_flatMap_const {α : Type} (l : List α) (f : α → List Nat) (k : Nat)
    (h : ∀ a, (f a).length = k) : (l.flatMap f).length = l.length * k := by
  induction l with
  | nil => simp
  | cons a t ih => simp [List.flatMap_cons, h, ih, Nat.succ_mul, Nat.add_comm]

/-- The raw buffer of an RGBA8 image has `width * height * 4` bytes. -/
theorem intoRaw_length (img : Rgba8Image) :
    img.intoRaw.length = img.width * img.height * 4 := by
  unfold Rgba8Image.intoRaw
  rw [length_flatMap_const _ _ (img.width * 4)]
  · simp; ring
  · intro y
    rw [length_flatMap_const _ _ 4]
    · simp
    · intro x
      rfl

/-- A successful `deal_dynamic_image` satisfies the canonical-buffer
invariant. -/
theorem deal_dynamic_image_invariant (d : DynamicImage) (img : ImageData)
    (h : Outcome.ofExcept (deal_dynamic_image d) = Outcome.ok img) :
    img.bytes.length = img.width * img.height * 4 := by
  simp only [deal_dynamic_image, Outcome.ofExcept] at h
  cases h
  simpa using intoRaw_length d.toRgba8

/-- Claim C1, amended: `get_image` fails with the no-image-data error
(`NotAnImage`, realised as `Error::Unknown` with description "probably
not a picture") exactly when the inline-bitmap (TIFF) format is absent
from the advertised types, regardless of whether a file-reference format
is advertised.  (The claim as stated, that an advertised file-reference
format without TIFF avoids this error, is refuted by
`claim_C1_counterexample`.) -/
theorem claim_C1 (sys : Sys) (pb : Pasteboard) :
    (get_image sys pb).1 = Outcome.error notAnImageErr ↔
      pb.types.contains TIFF = false := by
  constructor
  · intro h
    by_contra hT
    simp only [get_image, available_type_names] at h
    split at h
    case isTrue hcond => exact hT (by simpa using hcond)
    case isFalse hcond =>
      repeat' split at h
      all_goals
        first
        | exact absurd h (by decide)
        | simp [Outcome.ofExcept, deal_dynamic_image] at h
  · intro hT
    simp only [get_image, available_type_names, hT]
    rfl

/-- Claim C1, counterexample: a pasteboard that advertises the
file-reference format but not the TIFF format still makes `get_image`
fail with the no-image-data error, contradicting the claim that an
advertised file-reference format suffices to proceed to decoding. -/
theorem claim_C1_counterexample :
    (Pasteboard.mk [FILE_URL] (fun _ => none) (fun _ => none)).types.contains FILE_URL = true
    ∧ (Pasteboard.mk [FILE_URL] (fun _ => none) (fun _ => none)).types.contains TIFF = false
    ∧ (get_image (Sys.mk true true true (fun _ => FileReadResult.openErr) (fun _ => none))
        (Pasteboard.mk [FILE_URL] (fun _ => none) (fun _ => none))).1
      = Outcome.error notAnImageErr :=
  ⟨by decide, by decide, by decide⟩

/-- Claim C2: on the file-reference path with a well-formed,
percent-decodable `file://` URL whose file cannot be opened (an I/O
error), the code panics via `unwrap` on the `Result` of
`image::io::Reader::open` instead of returning a typed `DecodeFailure`
error; a decode error on an openable file does return the typed error.
This exhibits the divergence between the code and the claim. -/
theorem claim_C2_code_bug_exhibit :
    (get_image (Sys.mk true true true (fun _ => FileReadResult.openErr) (fun _ => none))
      (Pasteboard.mk [TIFF, FILE_URL] (fun _ => none)
        (fun ty => if ty = FILE_URL then some (strToBytes "file:///missing.png") else none))).1
      = Outcome.panic "called Result::unwrap() on an Err value"
    ∧ (get_image (Sys.mk true true true (fun _ => FileReadResult.decodeErr) (fun _ => none))
      (Pasteboard.mk [TIFF, FILE_URL] (fun _ => none)
        (fun ty => if ty = FILE_URL then some (strToBytes "file:///missing.png") else none))).1
      = Outcome.error openImgErr :=
  ⟨by decide, by decide⟩

/-- Claim C3: when the pasteboard advertises both the inline-bitmap
(TIFF) and the file-reference formats, `get_image` takes the
file-reference path: the only native calls it issues are the type query
and the read of the file-url payload; the TIFF payload is never
queried. -/
theorem claim_C3 (sys : Sys) (pb : Pasteboard)
    (hT : pb.types.contains TIFF = true)
    (hF : pb.types.contains FILE_URL = true) :
    (get_image sys pb).2 = [NativeCall.queryTypes, NativeCall.dataForType FILE_URL] := by
  simp only [get_image, available_type_names, hT, hF, Bool.not_true]
  norm_num
  repeat' split
  all_goals rfl

/-- Witness for claim C3 at a pasteboard advertising both formats. -/
theorem claim_C3_witness :
    (get_image (Sys.mk true true true (fun _ => FileReadResult.openErr) (fun _ => none))
      (Pasteboard.mk [TIFF, FILE_URL] (fun _ => none) (fun _ => none))).2
      = [NativeCall.queryTypes, NativeCall.dataForType FILE_URL] :=
  claim_C3 _ _ (by decide) (by decide)

/-- Claim C4: if encoding the canonical buffer into the native image
fails, `set_image` returns `ConversionFailure` (the spec name is
`EncodeFailure`), issues no native call at all, and therefore leaves the
pasteboard unchanged; when the encode succeeds, the pasteboard is
cleared and written only then (the clear is the first native call after
a successful encode). -/
theorem claim_C4 (sys : Sys) (data : ImageData) (pb : Pasteboard)
    (wsem : Pasteboard → Pasteboard) :
    (∀ e, image_from_pixels sys data.bytes data.width data.height = Except.error e →
      (set_image sys data).1 = Outcome.error Error.conversionFailure
      ∧ (set_image sys data).2 = []
      ∧ applyCalls wsem (set_image sys data).2 pb = pb)
    ∧ (∀ img, image_from_pixels sys data.bytes data.width data.height = Except.ok img →
      (set_image sys data).2
        = [NativeCall.clearContents, NativeCall.writeObjects sys.writeObjectsOk]) := by
  constructor
  · intro e he
    refine ⟨?_, ?_, ?_⟩ <;> simp [set_image, he, applyCalls]
  · intro img hi
    simp [set_image, hi]

/-- Witness for claim C4 in an environment where the `NSImage` class
lookup fails, so the encode step fails. -/
theorem claim_C4_witness :
    (set_image (Sys.mk true true false (fun _ => FileReadResult.openErr) (fun _ => none))
        (ImageData.mk 1 1 [0, 0, 0, 0])).1 = Outcome.error Error.conversionFailure
    ∧ (set_image (Sys.mk true true false (fun _ => FileReadResult.openErr) (fun _ => none))
        (ImageData.mk 1 1 [0, 0, 0, 0])).2 = []
    ∧ applyCalls id
        (set_image (Sys.mk true true false (fun _ => FileReadResult.openErr) (fun _ => none))
          (ImageData.mk 1 1 [0, 0, 0, 0])).2 Pasteboard.empty = Pasteboard.empty :=
  (claim_C4 (Sys.mk true true false (fun _ => FileReadResult.openErr) (fun _ => none))
    (ImageData.mk 1 1 [0, 0, 0, 0]) Pasteboard.empty id).1
    "Class::get(\"NSImage\")" rfl

/-- Claim C5: on the file-reference path, a payload without the
`file://` scheme makes `get_image` fail with the scheme error, and a
payload whose path does not percent-decode makes it fail with the decode
error (both are the errors the spec names `InvalidReference`). -/
theorem claim_C5 (sys : Sys) (pb : Pasteboard) (data : List Nat)
    (hT : pb.types.contains TIFF = true)
    (hF : pb.types.contains FILE_URL = true)
    (hD : pb.dataFor FILE_URL = some data) :
    (stripFileScheme (fromUtf8Lossy data) = none →
      (get_image sys pb).1 = Outcome.error fileUrlIllegalErr)
    ∧ (∀ stripped, stripFileScheme (fromUtf8Lossy data) = some stripped →
        urldecode stripped = none →
        (get_image sys pb).1 = Outcome.error decodeUrlErr) := by
  have hT' : TIFF ∈ pb.types := by simpa using hT
  have hF' : FILE_URL ∈ pb.types := by simpa using hF
  constructor
  · intro hs
    simp [get_image, available_type_names, hT', hF', hD, hs]
  · intro stripped hs hu
    simp [get_image, available_type_names, hT', hF', hD, hs, hu]

/-- Witness for claim C5 at the wrong-scheme payload
`http://example.com/x.png`. -/
theorem claim_C5_witness :
    (get_image (Sys.mk true true true (fun _ => FileReadResult.openErr) (fun _ => none))
      (Pasteboard.mk [TIFF, FILE_URL] (fun _ => none)
        (fun ty => if ty = FILE_URL then some (strToBytes "http://example.com/x.png") else none))).1
      = Outcome.error fileUrlIllegalErr :=
  (claim_C5 (Sys.mk true true true (fun _ => FileReadResult.openErr) (fun _ => none))
    (Pasteboard.mk [TIFF, FILE_URL] (fun _ => none)
      (fun ty => if ty = FILE_URL then some (strToBytes "http://example.com/x.png") else none))
    (strToBytes "http://example.com/x.png")
    (by decide) (by decide) (by decide)).1 (by decide)

/-- Claim C6: `set_text` first issues `clearContents` and then installs
the string under the plain-text type; when the OS accepts the write the
resulting pasteboard holds the string as its sole entry, and when the OS
declines it `set_text` fails with the write-failure error (the
pasteboard is then left cleared, since the clear precedes the
declined write). -/
theorem claim_C6 (sys : Sys) (s : String) (pb : Pasteboard)
    (wsem : Pasteboard → Pasteboard) :
    (set_text sys s).2
      = [NativeCall.clearContents,
         NativeCall.setString s NSPasteboardTypeString sys.setStringOk]
    ∧ (set_text sys s).1
      = (if sys.setStringOk then Outcome.ok () else Outcome.error writeFailureErr)
    ∧ applyCalls wsem (set_text sys s).2 pb
      = (if sys.setStringOk then soleTextEntry s else Pasteboard.empty) := by
  refine ⟨rfl, rfl, ?_⟩
  cases hok : sys.setStringOk <;>
    simp only [set_text, applyCalls, applyCall, hok] <;> rfl

/-- Claim C8: every successful `get_image`, on either decode path,
returns a canonical buffer normalised to RGBA8 whose byte length is
`width * height * 4`. -/
theorem claim_C8 (sys : Sys) (pb : Pasteboard) (img : ImageData)
    (h : (get_image sys pb).1 = Outcome.ok img) :
    img.bytes.length = img.width * img.height * 4 := by
  simp only [get_image, available_type_names] at h
  repeat' split at h
  all_goals
    first
    | exact deal_dynamic_image_invariant _ _ h
    | simp at h

/-- Witness for claim C8: a 1 by 1 TIFF payload decodes to a buffer of
4 bytes. -/
theorem claim_C8_witness :
    (ImageData.mk 1 1 [9, 8, 7, 6]).bytes.length
      = (ImageData.mk 1 1 [9, 8, 7, 6]).width * (ImageData.mk 1 1 [9, 8, 7, 6]).height * 4 :=
  claim_C8
    (Sys.mk true true true (fun _ => FileReadResult.openErr)
      (fun _ => some (DynamicImage.mk (Rgba8Image.mk 1 1 (fun _ _ => Pixel.mk 9 8 7 6)))))
    (Pasteboard.mk [TIFF] (fun _ => none) (fun ty => if ty = TIFF then some [0] else none))
    (ImageData.mk 1 1 [9, 8, 7, 6]) (by decide)

/-- Claim C9: every `NSImage` built by `image_from_pixels` wraps a CG
image with exactly the fixed descriptor parameters: 8 bits per
component, 32 bits per pixel, `4 * width` bytes per row, device RGB
color space, alpha-last with default byte order, the given dimensions,
and the given pixel buffer. -/
theorem claim_C9 (sys : Sys) (pixels : List Nat) (width height : Nat) (img : NSImage)
    (h : image_from_pixels sys pixels width height = Except.ok img) :
    img.cg.bitsPerComponent = 8 ∧ img.cg.bitsPerPixel = 32
    ∧ img.cg.bytesPerRow = 4 * width
    ∧ img.cg.colorSpace = ColorSpace.deviceRGB
    ∧ img.cg.bitmapInfo = (kCGBitmapByteOrderDefault ||| kCGImageAlphaLast)
    ∧ img.cg.width = width ∧ img.cg.height = height ∧ img.cg.data = pixels := by
  simp only [image_from_pixels] at h
  split at h
  · cases h
    exact ⟨rfl, rfl, rfl, rfl, rfl, rfl, rfl, rfl⟩
  · exact absurd h (by simp)

/-- Witness for claim C9 at a 1 by 1 image. -/
theorem claim_C9_witness :
    (NSImage.mk
      (CGImageModel.mk 1 1 8 32 4 ColorSpace.deviceRGB 3 [1, 2, 3, 4] false 0) 1 1).cg.bitsPerComponent = 8
    ∧ (NSImage.mk
      (CGImageModel.mk 1 1 8 32 4 ColorSpace.deviceRGB 3 [1, 2, 3, 4] false 0) 1 1).cg.bitsPerPixel = 32
    ∧ (NSImage.mk
      (CGImageModel.mk 1 1 8 32 4 ColorSpace.deviceRGB 3 [1, 2, 3, 4] false 0) 1 1).cg.bytesPerRow = 4 * 1
    ∧ (NSImage.mk
      (CGImageModel.mk 1 1 8 32 4 ColorSpace.deviceRGB 3 [1, 2, 3, 4] false 0) 1 1).cg.colorSpace = ColorSpace.deviceRGB
    ∧ (NSImage.mk
      (CGImageModel.mk 1 1 8 32 4 ColorSpace.deviceRGB 3 [1, 2, 3, 4] false 0) 1 1).cg.bitmapInfo = (kCGBitmapByteOrderDefault ||| kCGImageAlphaLast)
    ∧ (NSImage.mk
      (CGImageModel.mk 1 1 8 32 4 ColorSpace.deviceRGB 3 [1, 2, 3, 4] false 0) 1 1).cg.width = 1
    ∧ (NSImage.mk
      (CGImageModel.mk 1 1 8 32 4 ColorSpace.deviceRGB 3 [1, 2, 3, 4] false 0) 1 1).cg.height = 1
    ∧ (NSImage.mk
      (CGImageModel.mk 1 1 8 32 4 ColorSpace.deviceRGB 3 [1, 2, 3, 4] false 0) 1 1).cg.data = [1, 2, 3, 4] :=
  claim_C9 (Sys.mk true true true (fun _ => FileReadResult.openErr) (fun _ => none))
    [1, 2, 3, 4] 1 1
    (NSImage.mk (CGImageModel.mk 1 1 8 32 4 ColorSpace.deviceRGB 3 [1, 2, 3, 4] false 0) 1 1)
    rfl

/-- Every trace `get_image` can produce is one of the three query-only
call lists. -/
theorem get_image_trace (sys : Sys) (pb : Pasteboard) :
    (get_image sys pb).2 = [NativeCall.queryTypes]
    ∨ (get_image sys pb).2 = [NativeCall.queryTypes, NativeCall.dataForType FILE_URL]
    ∨ (get_image sys pb).2 = [NativeCall.queryTypes, NativeCall.dataForType TIFF] := by
  simp only [get_image, available_type_names]
  repeat' split
  all_goals simp

/-- Claim C10: `get_text` and `get_image` issue only query calls
(`types`, `stringForType:`, `dataForType:`) and never clear or write, so
under any write semantics their call traces leave the pasteboard state
unchanged. -/
theorem claim_C10 (sys : Sys) (pb : Pasteboard) (wsem : Pasteboard → Pasteboard) :
    ((get_text pb).2.all NativeCall.isQuery = true
      ∧ applyCalls wsem (get_text pb).2 pb = pb)
    ∧ ((get_image sys pb).2.all NativeCall.isQuery = true
      ∧ applyCalls wsem (get_image sys pb).2 pb = pb) := by
  refine ⟨⟨rfl, rfl⟩, ?_⟩
  rcases get_image_trace sys pb with h | h | h <;> rw [h] <;> exact ⟨rfl, rfl⟩
